import Mathlib

/-!
Verification development for the Gitea MCP connector (`src/connector.js`).

The connector bridges an MCP tool-invocation boundary to a Gitea/GitHub REST
API: each tool invocation builds one HTTP request (executed through `curl` +
`JSON.parse` in the source), and the parsed JSON response is formatted into a
tool result.  We embed the pure request-building and response-formatting logic
of every tool handler, the git-remote auto-detection, and the configuration
resolution.  The network, `curl` process execution and `JSON.parse` are the
environment: they are modelled as a responder `HttpRequest → Except String Json`
where `Except.error msg` stands for a thrown exception (curl timeout or
failure, or a response body that fails to parse) carrying its message.
-/

/-- JSON values as produced by `JSON.parse` on API responses.  Numbers are
modelled as integers (all numeric fields the connector reads and writes are
integral). -/
inductive Json where
  | null : Json
  | bool (b : Bool) : Json
  | num (n : Int) : Json
  | str (s : String) : Json
  | arr (xs : List Json) : Json
  | obj (fields : List (String × Json)) : Json

/-- Model of the `Array.isArray` check used by the listing handlers. -/
def Json.isArr : Json → Bool
  | Json.arr _ => true
  | _ => false

/-- First binding of a key in the field list of an object (object keys produced by
`JSON.parse` are distinct). -/
def lookupField : List (String × Json) → String → Option Json
  | [], _ => none
  | (k, v) :: rest, key => if k = key then some v else lookupField rest key

/-- Message of the TypeError thrown by JavaScript when a property is read off
`null` (V8 wording, as produced by the Node runtime the connector runs on). -/
def nullAccessMsg (key : String) : String :=
  "TypeError: Cannot read properties of null (reading \x27" ++ key ++ "\x27)"

/-- JavaScript property access `j.key` as an evaluation step: reading a
property off `null` throws a TypeError; on an object it yields the field (or
`undefined` when absent, modelled as `none`); on any other primitive or on an
array it yields `undefined`. -/
def getFieldE : Json → String → Except String (Option Json)
  | Json.null, key => Except.error (nullAccessMsg key)
  | Json.obj fs, key => Except.ok (lookupField fs key)
  | _, _ => Except.ok none

/-- JavaScript truthiness of a parsed JSON value. -/
def jsTruthy : Json → Bool
  | Json.null => false
  | Json.bool b => b
  | Json.num n => n != 0
  | Json.str s => s != ""
  | Json.arr _ => true
  | Json.obj _ => true

/-- Truthiness of a possibly-`undefined` value. -/
def jsTruthyO : Option Json → Bool
  | some j => jsTruthy j
  | none => false

mutual
/-- JavaScript `String(v)` coercion as used by template-literal interpolation. -/
def jsToString : Json → String
  | Json.null => "null"
  | Json.bool b => if b then "true" else "false"
  | Json.num n => toString n
  | Json.str s => s
  | Json.arr xs => jsArrToString xs
  | Json.obj _ => "[object Object]"

/-- Model of `Array.prototype.toString`: elements joined by commas, `null` rendered
empty. -/
def jsArrToString : List Json → String
  | [] => ""
  | [Json.null] => ""
  | [x] => jsToString x
  | Json.null :: y :: rest => "," ++ jsArrToString (y :: rest)
  | x :: y :: rest => jsToString x ++ "," ++ jsArrToString (y :: rest)
end

/-- Interpolation of an accessed value: `undefined` renders as "undefined". -/
def jsUndef : Option Json → String
  | some v => jsToString v
  | none => "undefined"

/-- Evaluation of `v || dflt` followed by interpolation, for a possibly-missing field and a
string default: a truthy value is interpolated, otherwise the default is. -/
def jsOrJson (v : Option Json) (dflt : String) : String :=
  match v with
  | some j => if jsTruthy j then jsToString j else dflt
  | none => dflt

/-- JavaScript `a || b` on strings (empty string is falsy). -/
def jsOr (a b : String) : String :=
  if a = "" then b else a

/-- Evaluation of `v || d` where `v` is a possibly-undefined environment string. -/
def jsOrO (v : Option String) (d : String) : String :=
  match v with
  | some s => if s = "" then d else s
  | none => d

/-- Model of `Array.prototype.join(sep)` on a list of strings. -/
def jsJoin (sep : String) : List String → String
  | [] => ""
  | [x] => x
  | x :: y :: rest => x ++ sep ++ jsJoin sep (y :: rest)

/-- Model of `Array.prototype.map` with a callback that can throw: elements
are visited left to right and the first thrown exception aborts the map and
propagates. -/
def mapE (f : α → Except String β) : List α → Except String (List β)
  | [] => Except.ok []
  | x :: xs => (f x).bind fun y => (mapE f xs).map fun ys => y :: ys

/-- Whether `pat` is an initial segment of `l`. -/
def listStartsWith : List Char → List Char → Bool
  | [], _ => true
  | _ :: _, [] => false
  | a :: as, b :: bs => a == b && listStartsWith as bs

/-- Whether `pat` occurs contiguously inside `l`. -/
def listContains (pat : List Char) : List Char → Bool
  | [] => listStartsWith pat []
  | c :: cs => listStartsWith pat (c :: cs) || listContains pat cs

/-- Model of `String.prototype.includes` (substring containment). -/
def strIncludes (s sub : String) : Bool :=
  listContains sub.toList s.toList

/-- Escaping of one character inside a JSON string literal, per
`JSON.stringify` (quote, backslash and the common control characters; other
control characters do not occur in the values the connector handles). -/
def escapeChar (c : Char) : String :=
  if c = '"' then "\\\""
  else if c = '\\' then "\\\\"
  else if c = '\n' then "\\n"
  else if c = '\t' then "\\t"
  else if c = '\r' then "\\r"
  else String.mk [c]

/-- A JSON string literal as printed by `JSON.stringify`. -/
def quoteStr (s : String) : String :=
  "\"" ++ String.join (s.toList.map escapeChar) ++ "\""

mutual
/-- Compact `JSON.stringify(v)`. -/
def stringifyCompact : Json → String
  | Json.null => "null"
  | Json.bool b => if b then "true" else "false"
  | Json.num n => toString n
  | Json.str s => quoteStr s
  | Json.arr xs => "[" ++ stringifyItems xs ++ "]"
  | Json.obj fs => "\x7b" ++ stringifyFields fs ++ "\x7d"

/-- Comma-separated compact rendering of array items. -/
def stringifyItems : List Json → String
  | [] => ""
  | [x] => stringifyCompact x
  | x :: y :: rest => stringifyCompact x ++ "," ++ stringifyItems (y :: rest)

/-- Comma-separated compact rendering of object fields. -/
def stringifyFields : List (String × Json) → String
  | [] => ""
  | [(k, v)] => quoteStr k ++ ":" ++ stringifyCompact v
  | (k, v) :: f :: rest =>
      quoteStr k ++ ":" ++ stringifyCompact v ++ "," ++ stringifyFields (f :: rest)
end

/-- A run of `n` spaces of indentation. -/
def indentStr (n : Nat) : String :=
  String.mk (List.replicate n ' ')

mutual
/-- Rendering of `JSON.stringify(v, null, 2)` at indentation level `ind`. -/
def prettyAux : Nat → Json → String
  | _, Json.null => "null"
  | _, Json.bool b => if b then "true" else "false"
  | _, Json.num n => toString n
  | _, Json.str s => quoteStr s
  | ind, Json.arr xs =>
      match xs with
      | [] => "[]"
      | x :: rest =>
          "[\n" ++ prettyItems (ind + 2) (x :: rest) ++ "\n" ++ indentStr ind ++ "]"
  | ind, Json.obj fs =>
      match fs with
      | [] => "\x7b\x7d"
      | f :: rest =>
          "\x7b\n" ++ prettyFields (ind + 2) (f :: rest) ++ "\n" ++ indentStr ind ++ "\x7d"

/-- Pretty array items, each on its own indented line, comma-separated. -/
def prettyItems : Nat → List Json → String
  | _, [] => ""
  | ind, [x] => indentStr ind ++ prettyAux ind x
  | ind, x :: y :: rest =>
      indentStr ind ++ prettyAux ind x ++ ",\n" ++ prettyItems ind (y :: rest)

/-- Pretty object fields, each on its own indented line, comma-separated. -/
def prettyFields : Nat → List (String × Json) → String
  | _, [] => ""
  | ind, [(k, v)] => indentStr ind ++ quoteStr k ++ ": " ++ prettyAux ind v
  | ind, (k, v) :: f :: rest =>
      indentStr ind ++ quoteStr k ++ ": " ++ prettyAux ind v ++ ",\n"
        ++ prettyFields ind (f :: rest)
end

/-- Rendering of `JSON.stringify(v, null, 2)` as used by `get_repo` and
`get_connection_info`. -/
def prettyStringify (j : Json) : String :=
  prettyAux 0 j

/-!
Git remote auto-detection (`detectGitConfig`).

The source matches the remote URL against the regular expression
`/[/:]([^\/]+)\/([^\/.]+)(?:\.git)?$/`: a match begins at a `/` or `:`
separator, captures a nonempty run of non-`/` characters, a literal `/`, a
nonempty run of characters that are neither `/` nor `.`, then an optional
literal `.git` and the end of the string.  JavaScript regex search tries
start positions left to right; since neither capture group can match past its
excluded characters, the match at a given separator is determined by maximal
(greedy) runs, exactly as implemented below.
-/

/-- Attempt the body of the remote-URL pattern on the characters following a
`/` or `:` separator: `([^\/]+)\/([^\/.]+)(?:\.git)?$`. -/
def tryMatchAt (rest : List Char) : Option (String × String) :=
  let g1 := rest.takeWhile (fun c => c != '/')
  if g1.isEmpty then none
  else
    match rest.drop g1.length with
    | '/' :: rest2 =>
        let g2 := rest2.takeWhile (fun c => c != '/' && c != '.')
        if g2.isEmpty then none
        else
          let rem := rest2.drop g2.length
          if rem = [] ∨ rem = ['.', 'g', 'i', 't'] then
            some (String.mk g1, String.mk g2)
          else none
    | _ => none

/-- Scan the remote URL left to right for the first separator at which the
pattern body matches. -/
def scanMatch : List Char → Option (String × String)
  | [] => none
  | c :: cs =>
      if c = '/' ∨ c = ':' then
        match tryMatchAt cs with
        | some r => some r
        | none => scanMatch cs
      else scanMatch cs

/-- Model of the match of the remote-URL regular expression, returning the two
capture groups. -/
def matchRemote (s : String) : Option (String × String) :=
  scanMatch s.toList

/-- Whitespace trimming on both ends (`String.prototype.trim` applied to the
`execSync` output, which carries a trailing newline). -/
def trimChars (l : List Char) : List Char :=
  ((l.dropWhile Char.isWhitespace).reverse.dropWhile Char.isWhitespace).reverse

/-- Result of a successful git-remote detection. -/
structure GitConfig where
  owner : String
  repo : String
  remoteUrl : String
  deriving DecidableEq, Repr

/-- Model of `detectGitConfig()`.  The argument is the outcome of
`execSync("git remote get-url origin")`: `none` when the command threw (git
unavailable or no remote), `some out` its raw stdout otherwise.  The source
trims the output, matches it, and returns `null` when either step fails (the
surrounding `try` swallows the throw). -/
def detectGitConfig : Option String → Option GitConfig
  | none => none
  | some out =>
      let remoteUrl := String.mk (trimChars out.toList)
      match matchRemote remoteUrl with
      | some (owner, repo) => some ⟨owner, repo, remoteUrl⟩
      | none => none

/-- The environment variables read by `getApiConfig` (`none` = unset). -/
structure Env where
  GITEA_API_URL : Option String
  GITEA_TOKEN : Option String
  GITHUB_TOKEN : Option String
  GITEA_OWNER : Option String
  GITEA_REPO : Option String
  deriving DecidableEq, Repr

/-- The resolved configuration (the result of `getApiConfig`). -/
structure Config where
  apiUrl : String
  token : String
  isGitHub : Bool
  owner : String
  repo : String
  deriving DecidableEq, Repr

/-- Model of `getApiConfig()`: merge environment variables with the detected git
remote.  `gitRemote` is the outcome of the remote query as in
`detectGitConfig`. -/
def getApiConfig (env : Env) (gitRemote : Option String) : Config :=
  let apiUrl := jsOrO env.GITEA_API_URL "https://api.github.com"
  let token := jsOrO env.GITEA_TOKEN (jsOrO env.GITHUB_TOKEN "")
  let gitConfig := detectGitConfig gitRemote
  let isGitHub :=
    strIncludes apiUrl "github.com" ||
      (match gitConfig with
       | some g => strIncludes g.remoteUrl "github.com"
       | none => false)
  let owner :=
    match gitConfig with
    | some g => jsOr g.owner (jsOrO env.GITEA_OWNER "")
    | none => jsOrO env.GITEA_OWNER ""
  let repo :=
    match gitConfig with
    | some g => jsOr g.repo (jsOrO env.GITEA_REPO "")
    | none => jsOrO env.GITEA_REPO ""
  ⟨apiUrl, token, isGitHub, owner, repo⟩

/-!
HTTP transport model (`curlRequest` / `apiCall`).

`curlRequest` spawns one `curl` process and parses its stdout with
`JSON.parse`.  We embed the request it builds (method, URL, headers, optional
serialized body); executing the request is a job of the environment, modelled
elsewhere as a responder `HttpRequest → Except String Json` whose `error`
constructor is a thrown exception (curl failure, timeout, or JSON parse
failure) carrying its message.  The shell-level assembly of the `curl`
command line (quoting of arguments) is a transport detail below the level of
observable request data and is not modelled.
-/

/-- One outbound HTTP request as assembled by `curlRequest`. -/
structure HttpRequest where
  method : String
  url : String
  headers : List (String × String)
  data : Option String
  deriving DecidableEq, Repr

/-- A JavaScript object literal about to be `JSON.stringify`ed as a request
body: field order is the insertion order of the literal, and a `none` value models
a field holding `undefined`. -/
def JsObj : Type := List (String × Option Json)

/-- Behavior of `JSON.stringify` on an object literal: fields whose value is `undefined`
are omitted. -/
def stringifyJsObj (fs : JsObj) : String :=
  "\x7b" ++
    jsJoin ","
      (List.filterMap
        (fun p : String × Option Json =>
          p.2.map fun v => quoteStr p.1 ++ ":" ++ stringifyCompact v)
        fs)
    ++ "\x7d"

/-- The header list pushed by `curlRequest`: `Accept` and `Content-Type`
always, plus an `Authorization` header when a token is present, with the
scheme chosen by `isGitHub`. -/
def curlHeaders (token : String) (isGitHub : Bool) : List (String × String) :=
  [("Accept", "application/json"), ("Content-Type", "application/json")] ++
    (if token = "" then []
     else [("Authorization", (if isGitHub then "Bearer " else "token ") ++ token)])

/-- The request built by `curlRequest(method, url, data, token, isGitHub)`. -/
def mkRequest (method url : String) (data : Option JsObj) (token : String)
    (isGitHub : Bool) : HttpRequest :=
  ⟨method, url, curlHeaders token isGitHub, data.map stringifyJsObj⟩

/-- Query-parameter serialization: `apiCall` fills a `URLSearchParams` with
the non-null, non-undefined parameters in insertion order and appends its
`toString`.  Every parameter value the handlers produce consists of unreserved
characters (digits and lowercase letters), on which `URLSearchParams`
percent-encoding is the identity, so encoding is not modelled. -/
def buildParams (ps : List (String × Option String)) : String :=
  jsJoin "&"
    (List.filterMap
      (fun p : String × Option String => p.2.map fun v => p.1 ++ "=" ++ v)
      ps)

/-- Model of `apiCall(method, endpoint, data, params)`: the request against the
configured base URL. -/
def apiCall (cfg : Config) (method endpoint : String) (data : Option JsObj)
    (params : Option (List (String × Option String))) : HttpRequest :=
  let url := cfg.apiUrl ++ endpoint
  let url :=
    match params with
    | some ps =>
        let qs := buildParams ps
        if qs = "" then url else url ++ "?" ++ qs
    | none => url
  mkRequest method url data cfg.token cfg.isGitHub

/-!
Tool handlers.

Each MCP tool handler returns a result object `{content, isError?}` whose
content blocks are all of type `"text"`; we model a result as the list of its
text blocks plus the error flag (absent in the source = `false`).  A handler
is embedded as a function of the resolved configuration, the responder of the
environment, and its (schema-validated) arguments, returning the `Except`-value
of its body — `Except.error` when an uncaught exception propagates out of the
handler — paired with the list of HTTP requests it issued.
-/

/-- An MCP tool result: text content blocks plus the error flag. -/
structure ToolResult where
  content : List String
  isError : Bool
  deriving DecidableEq, Repr

/-- Evaluation of `res.message || JSON.stringify(res)` interpolated into the error template
of the listing handlers: the property access runs first and throws on a
`null` response; otherwise a truthy message is kept and the raw serialized
body used as fallback. -/
def apiErrText (j : Json) : Except String String :=
  (getFieldE j "message").map fun m =>
    match m with
    | some v => if jsTruthy v then jsToString v else stringifyCompact j
    | none => stringifyCompact j

/-- One entry of the `list_repos` summary (the callback of `repos.map`), for
the repository record `r` at index `i`: the property reads happen in source
order (`private`, `language`, `description`, `stargazers_count`,
`forks_count`, then the template reads), so a `null` element throws at
`r.private` first. -/
def fmtRepoEntry (i : Nat) (r : Json) : Except String String :=
  (getFieldE r "private").bind fun priv =>
  (getFieldE r "language").bind fun language =>
  (getFieldE r "description").bind fun description =>
  (getFieldE r "stargazers_count").bind fun stars =>
  (getFieldE r "forks_count").bind fun forks =>
  (getFieldE r "full_name").bind fun full_name =>
  (getFieldE r "html_url").bind fun html_url =>
  (getFieldE r "default_branch").bind fun default_branch =>
  (getFieldE r "created_at").bind fun created_at =>
  (getFieldE r "updated_at").map fun updated_at =>
    let visibility := if jsTruthyO priv then "Private" else "Public"
    jsJoin "\n"
      [toString (i + 1) ++ ". " ++ jsUndef full_name ++ " [" ++ visibility ++ "]",
       "   Language: " ++ jsOrJson language "N/A" ++ " | Stars: " ++ jsOrJson stars "0"
         ++ " | Forks: " ++ jsOrJson forks "0",
       "   Description: " ++ jsOrJson description "No description",
       "   URL: " ++ jsUndef html_url,
       "   Default Branch: " ++ jsOrJson default_branch "N/A",
       "   Created: " ++ jsOrJson created_at "N/A",
       "   Updated: " ++ jsOrJson updated_at "N/A"]

/-- The success text of `list_repos` for an array response (note the `||`
applies to the whole template literal); a throwing element aborts the map and
propagates. -/
def listReposText (xs : List Json) : Except String String :=
  (mapE (fun p : Nat × Json => fmtRepoEntry p.1 p.2) xs.enum).map fun entries =>
    jsOr ("Found " ++ toString xs.length ++ " repositories:\n\n" ++ jsJoin "\n\n" entries)
      "No repositories found."

/-- One line of the `list_issues` summary (property reads in template order:
`number`, `title`, `state`; a `null` element throws at `i.number`). -/
def fmtIssueLine (i : Json) : Except String String :=
  (getFieldE i "number").bind fun number =>
  (getFieldE i "title").bind fun title =>
  (getFieldE i "state").map fun st =>
    "#" ++ jsUndef number ++ ": " ++ jsUndef title ++ " [" ++ jsUndef st ++ "]"

/-- One line of the `list_branches` summary (`b.name`; throws on a `null`
element). -/
def fmtBranchName (b : Json) : Except String String :=
  (getFieldE b "name").map jsUndef

/-- The environment of one HTTP call: either the parsed JSON of the response
body, or the message of the exception thrown by `execSync`/`JSON.parse`. -/
def Responder : Type := HttpRequest → Except String Json

/-- The shared shape of every networked handler body: issue the one request
(`const x = apiCall(...)`), let a thrown exception propagate out of the
handler, and otherwise continue with the parsed JSON; the continuation itself
can throw (a TypeError raised while formatting the response). -/
def withRequest (req : HttpRequest) (respond : Responder)
    (k : Json → Except String ToolResult) :
    Except String ToolResult × List HttpRequest :=
  match respond req with
  | Except.error e => (Except.error e, [req])
  | Except.ok j => (k j, [req])

/-- The `list_repos` handler. -/
def list_repos_handler (cfg : Config) (respond : Responder) (org : Option String)
    (page per_page : Option Int) : Except String ToolResult × List HttpRequest :=
  let page := page.getD 1
  let per_page := per_page.getD 100
  let targetOrg := jsOrO org cfg.owner
  if targetOrg ≠ "" ∨ cfg.token ≠ "" then
    let endpoint :=
      if targetOrg ≠ "" then "/orgs/" ++ targetOrg ++ "/repos" else "/user/repos"
    let req := apiCall cfg "GET" endpoint none
      (some [("page", some (toString page)), ("per_page", some (toString per_page)),
             ("limit", some (toString per_page)), ("type", some "all")])
    withRequest req respond fun repos =>
      match repos with
      | Json.arr xs => (listReposText xs).map fun text => ⟨[text], false⟩
      | other => (apiErrText other).map fun t => ⟨["API Error: " ++ t], true⟩
  else
    (Except.ok ⟨["Error: No org specified and no auth token. Provide an org name or set GITEA_TOKEN."],
       true⟩, [])

/-- The `get_repo` handler. -/
def get_repo_handler (cfg : Config) (respond : Responder) (owner repo : String) :
    Except String ToolResult × List HttpRequest :=
  let req := apiCall cfg "GET" ("/repos/" ++ owner ++ "/" ++ repo) none none
  withRequest req respond fun r => Except.ok ⟨[prettyStringify r], false⟩

/-- The `list_issues` handler (`state` is the zod-validated enum value). -/
def list_issues_handler (cfg : Config) (respond : Responder) (owner repo : String)
    (state : Option String) (page per_page : Option Int) :
    Except String ToolResult × List HttpRequest :=
  let state := state.getD "open"
  let page := page.getD 1
  let per_page := per_page.getD 20
  let req := apiCall cfg "GET" ("/repos/" ++ owner ++ "/" ++ repo ++ "/issues") none
    (some [("state", some state), ("page", some (toString page)),
           ("per_page", some (toString per_page)), ("limit", some (toString per_page))])
  withRequest req respond fun issues =>
    match issues with
    | Json.arr xs =>
        (mapE fmtIssueLine xs).map fun lines =>
          ⟨[jsOr (jsJoin "\n" lines) "No issues found."], false⟩
    | other => (apiErrText other).map fun t => ⟨["Error: " ++ t], true⟩

/-- The `list_branches` handler. -/
def list_branches_handler (cfg : Config) (respond : Responder) (owner repo : String) :
    Except String ToolResult × List HttpRequest :=
  let req := apiCall cfg "GET" ("/repos/" ++ owner ++ "/" ++ repo ++ "/branches") none none
  withRequest req respond fun branches =>
    match branches with
    | Json.arr xs =>
        (mapE fmtBranchName xs).map fun names =>
          ⟨[jsOr (jsJoin "\n" names) "No branches found."], false⟩
    | other => (apiErrText other).map fun t => ⟨["Error: " ++ t], true⟩

/-- The `create_issue` handler.  Note: no shape check is performed on the
response; the success template reads `number`, `title` and `html_url` off
whatever came back. -/
def create_issue_handler (cfg : Config) (respond : Responder)
    (owner repo title : String) (body : Option String) :
    Except String ToolResult × List HttpRequest :=
  let req := apiCall cfg "POST" ("/repos/" ++ owner ++ "/" ++ repo ++ "/issues")
    (some [("title", some (Json.str title)), ("body", body.map Json.str)]) none
  withRequest req respond fun issue =>
    (getFieldE issue "number").bind fun number =>
    (getFieldE issue "title").bind fun title =>
    (getFieldE issue "html_url").map fun html_url =>
      ⟨["Created issue #" ++ jsUndef number ++ ": " ++ jsUndef title
          ++ "\nURL: " ++ jsUndef html_url], false⟩

/-- The `create_pull_request` handler (`base` defaults to "main"); like
`create_issue`, no shape check on the response. -/
def create_pull_request_handler (cfg : Config) (respond : Responder)
    (owner repo title head : String) (base body : Option String) :
    Except String ToolResult × List HttpRequest :=
  let base := base.getD "main"
  let req := apiCall cfg "POST" ("/repos/" ++ owner ++ "/" ++ repo ++ "/pulls")
    (some [("title", some (Json.str title)), ("head", some (Json.str head)),
           ("base", some (Json.str base)), ("body", body.map Json.str)]) none
  withRequest req respond fun pr =>
    (getFieldE pr "number").bind fun number =>
    (getFieldE pr "title").bind fun title =>
    (getFieldE pr "html_url").map fun html_url =>
      ⟨["Created PR #" ++ jsUndef number ++ ": " ++ jsUndef title
          ++ "\nURL: " ++ jsUndef html_url], false⟩

/-- The `get_connection_info` handler: re-runs remote detection (`gitRemote`
is the outcome of that query) and pretty-prints the info object; it issues no HTTP
request and never sets `isError`. -/
def get_connection_info_handler (cfg : Config) (gitRemote : Option String) :
    Except String ToolResult × List HttpRequest :=
  let gitConfig := detectGitConfig gitRemote
  let info : Json := Json.obj
    [("api_url", Json.str cfg.apiUrl),
     ("is_github", Json.bool cfg.isGitHub),
     ("authenticated", Json.bool (cfg.token != "")),
     ("detected_owner", Json.str cfg.owner),
     ("detected_repo", Json.str cfg.repo),
     ("git_remote", Json.str
        (jsOr (match gitConfig with | some g => g.remoteUrl | none => "") "not detected"))]
  (Except.ok ⟨[prettyStringify info], false⟩, [])

/-- One tool invocation with its schema-validated arguments. -/
inductive ToolCall where
  | list_repos (org : Option String) (page per_page : Option Int)
  | get_repo (owner repo : String)
  | list_issues (owner repo : String) (state : Option String) (page per_page : Option Int)
  | list_branches (owner repo : String)
  | create_issue (owner repo title : String) (body : Option String)
  | create_pull_request (owner repo title head : String) (base body : Option String)
  | get_connection_info
  deriving DecidableEq, Repr

/-- Dispatch of one invocation to its handler.  `gitRemote` is the outcome of
the git remote query should the handler perform one. -/
def dispatchTool (cfg : Config) (gitRemote : Option String) (respond : Responder) :
    ToolCall → Except String ToolResult × List HttpRequest
  | ToolCall.list_repos org page per_page =>
      list_repos_handler cfg respond org page per_page
  | ToolCall.get_repo owner repo => get_repo_handler cfg respond owner repo
  | ToolCall.list_issues owner repo state page per_page =>
      list_issues_handler cfg respond owner repo state page per_page
  | ToolCall.list_branches owner repo => list_branches_handler cfg respond owner repo
  | ToolCall.create_issue owner repo title body =>
      create_issue_handler cfg respond owner repo title body
  | ToolCall.create_pull_request owner repo title head base body =>
      create_pull_request_handler cfg respond owner repo title head base body
  | ToolCall.get_connection_info => get_connection_info_handler cfg gitRemote

/-- Modelled from the spec: the dispatch boundary of the tool-invocation
protocol library (the MCP server SDK, an external collaborator not under
`src/`) catches every exception thrown by a handler and converts it into a
structured error result carrying the underlying failure message, so that the
protocol call itself always completes and the server process keeps running. -/
def dispatchBoundary : Except String ToolResult → ToolResult
  | Except.ok r => r
  | Except.error msg => ⟨[msg], true⟩

/-!
Helper lemmas about the string operations.
-/

theorem append_eq_empty_left (a b : String) (h : a ++ b = "") : a = "" := by
  rcases a with ⟨da⟩
  rcases b with ⟨db⟩
  have hd : da ++ db = ([] : List Char) := congrArg String.data h
  have : da = [] := (List.append_eq_nil.mp hd).1
  simp [this]

theorem append_ne_empty_left (a b : String) (h : a ≠ "") : a ++ b ≠ "" :=
  fun hab => h (append_eq_empty_left a b hab)

theorem jsOr_of_ne (a d : String) (h : a ≠ "") : jsOr a d = a := by
  simp [jsOr, h]

theorem jsJoin_cons_ne (sep x : String) (xs : List String) (h : x ≠ "") :
    jsJoin sep (x :: xs) ≠ "" := by
  cases xs with
  | nil => simpa [jsJoin] using h
  | cons y ys =>
      show x ++ sep ++ jsJoin sep (y :: ys) ≠ ""
      exact append_ne_empty_left _ _ (append_ne_empty_left _ _ h)

theorem strAppendAssoc (a b c : String) : a ++ b ++ c = a ++ (b ++ c) := by
  rcases a with ⟨da⟩
  rcases b with ⟨db⟩
  rcases c with ⟨dc⟩
  exact congrArg String.mk (List.append_assoc da db dc)

theorem withRequest_snd (req : HttpRequest) (respond : Responder)
    (k : Json → Except String ToolResult) :
    (withRequest req respond k).2 = [req] := by
  unfold withRequest
  cases respond req <;> rfl

theorem withRequest_of_error (req : HttpRequest) (msg : String)
    (k : Json → Except String ToolResult) :
    withRequest req (fun _ => Except.error msg) k = (Except.error msg, [req]) :=
  rfl

theorem withRequest_of_ok (req : HttpRequest) (j : Json)
    (k : Json → Except String ToolResult) :
    withRequest req (fun _ => Except.ok j) k = (k j, [req]) :=
  rfl

theorem mapE_ok_comp {α β γ : Type} (f : β → Except String γ) (g : α → β) (h : α → γ)
    (hf : ∀ x, f (g x) = Except.ok (h x)) :
    ∀ xs : List α, mapE f (xs.map g) = Except.ok (xs.map h) := by
  intro xs
  induction xs with
  | nil => rfl
  | cons x rest ih => simp [mapE, hf, ih, Except.bind, Except.map]

theorem errText_obj (fs : List (String × Json)) :
    apiErrText (Json.obj fs) = Except.ok
      (match getFieldE (Json.obj fs) "message" with
       | Except.ok (some v) => if jsTruthy v then jsToString v
                               else stringifyCompact (Json.obj fs)
       | _ => stringifyCompact (Json.obj fs)) := by
  have hg : getFieldE (Json.obj fs) "message" = Except.ok (lookupField fs "message") := rfl
  unfold apiErrText
  rw [hg]
  cases lookupField fs "message" <;> rfl

/-!
Claim theorems.
-/

/-- C5: invoking `create_issue` with owner "acme", repo "widget", title "Bug"
and body omitted issues a POST to `/repos/acme/widget/issues` whose JSON body
is the serialization of `{title:"Bug", body:undefined}` (i.e.
`{"title":"Bug"}`), and given the response
`{number:7, title:"Bug", html_url:"https://x/7"}` returns the success text
`"Created issue #7: Bug\nURL: https://x/7"`. -/
theorem create_issue_end_to_end (cfg : Config) :
    dispatchTool cfg none
        (fun _ => Except.ok (Json.obj
          [("number", Json.num 7), ("title", Json.str "Bug"),
           ("html_url", Json.str "https://x/7")]))
        (ToolCall.create_issue "acme" "widget" "Bug" none) =
      (Except.ok ⟨["Created issue #7: Bug\nURL: https://x/7"], false⟩,
       [⟨"POST", cfg.apiUrl ++ "/repos/acme/widget/issues",
         curlHeaders cfg.token cfg.isGitHub, some "\x7b\"title\":\"Bug\"\x7d"⟩]) := by
  rfl

/-- C6: for every `{owner, repo}` argument pair and every parsed JSON
response, `get_repo` issues exactly one GET request to `/repos/{owner}/{repo}`
(no query string, no body) and returns the response unmodified apart from
2-space-indented pretty-printing, as a success text block (`isError` unset). -/
theorem get_repo_passthrough (cfg : Config) (owner repo : String) (j : Json) :
    dispatchTool cfg none (fun _ => Except.ok j) (ToolCall.get_repo owner repo) =
      (Except.ok ⟨[prettyStringify j], false⟩,
       [⟨"GET", cfg.apiUrl ++ ("/repos/" ++ owner ++ "/" ++ repo),
         curlHeaders cfg.token cfg.isGitHub, none⟩]) := by
  rfl

/-- C9: `get_connection_info` issues no HTTP request and, for every
configuration and every outcome of the git-remote re-detection (including
failure), returns a success result — `isError` unset — whose single text
block pretty-prints the resolved configuration (API URL, GitHub flavor,
whether a token is set, detected owner/repo, and the re-detected remote or
"not detected"). -/
theorem get_connection_info_never_errors (cfg : Config) (gitRemote : Option String)
    (respond : Responder) :
    dispatchTool cfg gitRemote respond ToolCall.get_connection_info =
      (Except.ok
        ⟨[prettyStringify (Json.obj
            [("api_url", Json.str cfg.apiUrl),
             ("is_github", Json.bool cfg.isGitHub),
             ("authenticated", Json.bool (cfg.token != "")),
             ("detected_owner", Json.str cfg.owner),
             ("detected_repo", Json.str cfg.repo),
             ("git_remote", Json.str
               (jsOr (match detectGitConfig gitRemote with
                      | some g => g.remoteUrl
                      | none => "") "not detected"))])],
          false⟩, []) := by
  rfl

/-- C3: when `list_repos` is invoked with no `org` argument, the resolved
configuration has an empty default owner, and the auth token is empty, the
tool returns an error result with a corrective message and performs no HTTP
request. -/
theorem list_repos_config_gap (cfg : Config) (respond : Responder)
    (howner : cfg.owner = "") (htoken : cfg.token = "") :
    dispatchTool cfg none respond (ToolCall.list_repos none none none) =
      (Except.ok
        ⟨["Error: No org specified and no auth token. Provide an org name or set GITEA_TOKEN."],
          true⟩, []) := by
  simp [dispatchTool, list_repos_handler, jsOrO, howner, htoken]

/-- C3 witness: the configuration-gap branch at a concrete configuration. -/
theorem list_repos_config_gap_witness :
    dispatchTool ⟨"https://api.github.com", "", true, "", ""⟩ none
        (fun _ => Except.error "no request is made") (ToolCall.list_repos none none none) =
      (Except.ok
        ⟨["Error: No org specified and no auth token. Provide an org name or set GITEA_TOKEN."],
          true⟩, []) :=
  list_repos_config_gap ⟨"https://api.github.com", "", true, "", ""⟩
    (fun _ => Except.error "no request is made") rfl rfl

/-- C7: invoking `create_pull_request` with the `base` argument omitted sends
"main" as the base branch in the outgoing POST request body to
`/repos/{owner}/{repo}/pulls`, for every configuration, responder and
remaining arguments. -/
theorem create_pr_default_base (cfg : Config) (respond : Responder)
    (owner repo title head : String) (body : Option String) :
    (dispatchTool cfg none respond
        (ToolCall.create_pull_request owner repo title head none body)).2 =
      [mkRequest "POST" (cfg.apiUrl ++ ("/repos/" ++ owner ++ "/" ++ repo ++ "/pulls"))
        (some [("title", some (Json.str title)), ("head", some (Json.str head)),
               ("base", some (Json.str "main")), ("body", body.map Json.str)])
        cfg.token cfg.isGitHub] := by
  show (create_pull_request_handler cfg respond owner repo title head none body).2 = _
  unfold create_pull_request_handler
  dsimp only
  rw [withRequest_snd]
  rfl

/-- C8: git-remote detection and fallback: the remote URL
`git@host:acme/widget.git` resolves to owner "acme" and repo "widget" (also
through full configuration resolution, for every environment); a remote URL
not matching the trailing `<owner>/<repo>` shape, or a failed remote query,
yields no detection (`none`) — and configuration resolution then falls back
to the environment variables, then to empty strings. -/
theorem git_detection_and_fallback :
    detectGitConfig (some "git@host:acme/widget.git") =
        some ⟨"acme", "widget", "git@host:acme/widget.git"⟩
    ∧ detectGitConfig (some "nonsense") = none
    ∧ detectGitConfig none = none
    ∧ (∀ env : Env,
        (getApiConfig env (some "git@host:acme/widget.git")).owner = "acme"
        ∧ (getApiConfig env (some "git@host:acme/widget.git")).repo = "widget"
        ∧ (getApiConfig env none).owner = jsOrO env.GITEA_OWNER ""
        ∧ (getApiConfig env none).repo = jsOrO env.GITEA_REPO ""
        ∧ (getApiConfig env (some "nonsense")).owner = jsOrO env.GITEA_OWNER "")
    ∧ (getApiConfig ⟨none, none, none, some "envowner", some "envrepo"⟩ none).owner = "envowner"
    ∧ (getApiConfig ⟨none, none, none, some "envowner", some "envrepo"⟩ none).repo = "envrepo"
    ∧ (getApiConfig ⟨none, none, none, none, none⟩ none).owner = ""
    ∧ (getApiConfig ⟨none, none, none, none, none⟩ none).repo = "" := by
  have hdet : detectGitConfig (some "git@host:acme/widget.git") =
      some ⟨"acme", "widget", "git@host:acme/widget.git"⟩ := by decide
  have hnon : detectGitConfig (some "nonsense") = none := by decide
  refine ⟨hdet, hnon, rfl, fun env => ⟨?_, ?_, rfl, rfl, ?_⟩,
    by decide, by decide, by decide, by decide⟩
  · simp [getApiConfig, hdet, jsOr]
  · simp [getApiConfig, hdet, jsOr]
  · simp [getApiConfig, hnon]

/-- C1 counterexample: `create_issue`, given a response carrying a `message`
field in an otherwise-unexpected shape, does NOT return an error result — it
returns a success result (`isError` unset) whose text interpolates
`undefined` for the missing fields and drops the message entirely. -/
theorem create_issue_message_not_flagged :
    dispatchBoundary (dispatchTool ⟨"https://api.github.com", "tok", true, "", ""⟩ none
        (fun _ => Except.ok (Json.obj [("message", Json.str "Validation Failed")]))
        (ToolCall.create_issue "acme" "widget" "Bug" none)).1 =
      ⟨["Created issue #undefined: undefined\nURL: undefined"], false⟩ := by
  rfl

/-- C1 (amended): only the three listing tools treat a non-array response as
an API-level error, and only up to the point the message read succeeds: for a
non-array, non-`null` response each returns an error result (`isError` set)
whose text carries the `message` field of the response when that field is
present and truthy, and the raw serialized body otherwise; for a `null`
response the message read itself throws a TypeError, which the dispatch
boundary converts into an error result carrying the TypeError message rather
than the serialized body.  `create_issue`, `create_pull_request` and
`get_repo` perform no such check at all (see the counterexample). -/
theorem listing_non_array_is_error (cfg : Config) (j : Json) (owner repo : String)
    (hj : j.isArr = false) (hnull : j ≠ Json.null) :
    (dispatchTool cfg none (fun _ => Except.ok j)
        (ToolCall.list_repos (some "acme") none none)).1 =
      Except.ok ⟨["API Error: " ++
        (match getFieldE j "message" with
         | Except.ok (some v) => if jsTruthy v then jsToString v else stringifyCompact j
         | _ => stringifyCompact j)], true⟩
    ∧ (dispatchTool cfg none (fun _ => Except.ok j)
        (ToolCall.list_issues owner repo none none none)).1 =
      Except.ok ⟨["Error: " ++
        (match getFieldE j "message" with
         | Except.ok (some v) => if jsTruthy v then jsToString v else stringifyCompact j
         | _ => stringifyCompact j)], true⟩
    ∧ (dispatchTool cfg none (fun _ => Except.ok j)
        (ToolCall.list_branches owner repo)).1 =
      Except.ok ⟨["Error: " ++
        (match getFieldE j "message" with
         | Except.ok (some v) => if jsTruthy v then jsToString v else stringifyCompact j
         | _ => stringifyCompact j)], true⟩
    ∧ dispatchBoundary (dispatchTool cfg none (fun _ => Except.ok Json.null)
        (ToolCall.list_repos (some "acme") none none)).1 =
      ⟨[nullAccessMsg "message"], true⟩
    ∧ dispatchBoundary (dispatchTool cfg none (fun _ => Except.ok Json.null)
        (ToolCall.list_issues owner repo none none none)).1 =
      ⟨[nullAccessMsg "message"], true⟩
    ∧ dispatchBoundary (dispatchTool cfg none (fun _ => Except.ok Json.null)
        (ToolCall.list_branches owner repo)).1 =
      ⟨[nullAccessMsg "message"], true⟩ := by
  cases j with
  | arr xs => simp [Json.isArr] at hj
  | null => exact absurd rfl hnull
  | bool b => exact ⟨rfl, rfl, rfl, rfl, rfl, rfl⟩
  | num n => exact ⟨rfl, rfl, rfl, rfl, rfl, rfl⟩
  | str s => exact ⟨rfl, rfl, rfl, rfl, rfl, rfl⟩
  | obj fs =>
      refine ⟨?_, ?_, ?_, rfl, rfl, rfl⟩
      · show (apiErrText (Json.obj fs)).map
            (fun t => (⟨["API Error: " ++ t], true⟩ : ToolResult)) = _
        rw [errText_obj]
        rfl
      · show (apiErrText (Json.obj fs)).map
            (fun t => (⟨["Error: " ++ t], true⟩ : ToolResult)) = _
        rw [errText_obj]
        rfl
      · show (apiErrText (Json.obj fs)).map
            (fun t => (⟨["Error: " ++ t], true⟩ : ToolResult)) = _
        rw [errText_obj]
        rfl

/-- C1 (amended) witness: the three listing tools on the concrete non-array
response `{"message":"Not Found"}`, together with the TypeError path at a
`null` response. -/
theorem listing_non_array_is_error_witness :
    (dispatchTool ⟨"https://api.github.com", "", false, "", ""⟩ none
        (fun _ => Except.ok (Json.obj [("message", Json.str "Not Found")]))
        (ToolCall.list_repos (some "acme") none none)).1 =
      Except.ok ⟨["API Error: Not Found"], true⟩
    ∧ (dispatchTool ⟨"https://api.github.com", "", false, "", ""⟩ none
        (fun _ => Except.ok (Json.obj [("message", Json.str "Not Found")]))
        (ToolCall.list_issues "acme" "widget" none none none)).1 =
      Except.ok ⟨["Error: Not Found"], true⟩
    ∧ (dispatchTool ⟨"https://api.github.com", "", false, "", ""⟩ none
        (fun _ => Except.ok (Json.obj [("message", Json.str "Not Found")]))
        (ToolCall.list_branches "acme" "widget")).1 =
      Except.ok ⟨["Error: Not Found"], true⟩
    ∧ dispatchBoundary (dispatchTool ⟨"https://api.github.com", "", false, "", ""⟩ none
        (fun _ => Except.ok Json.null) (ToolCall.list_repos (some "acme") none none)).1 =
      ⟨["TypeError: Cannot read properties of null (reading \x27message\x27)"], true⟩
    ∧ dispatchBoundary (dispatchTool ⟨"https://api.github.com", "", false, "", ""⟩ none
        (fun _ => Except.ok Json.null) (ToolCall.list_issues "acme" "widget" none none none)).1 =
      ⟨["TypeError: Cannot read properties of null (reading \x27message\x27)"], true⟩
    ∧ dispatchBoundary (dispatchTool ⟨"https://api.github.com", "", false, "", ""⟩ none
        (fun _ => Except.ok Json.null) (ToolCall.list_branches "acme" "widget")).1 =
      ⟨["TypeError: Cannot read properties of null (reading \x27message\x27)"], true⟩ :=
  listing_non_array_is_error ⟨"https://api.github.com", "", false, "", ""⟩
    (Json.obj [("message", Json.str "Not Found")]) "acme" "widget" rfl
    (fun h => Json.noConfusion h)

/-- C2: for every tool invocation that issues its HTTP request, a transport
failure (the `execSync` curl call throwing on timeout or connection failure,
or `JSON.parse` throwing on a malformed body) makes the handler propagate the
exception, and the dispatch boundary converts it into a structured error
result carrying the underlying failure message — the call completes with a
`ToolResult` and nothing escapes to crash the server process. -/
theorem transport_failure_is_error_result (cfg : Config) (gitRemote : Option String)
    (msg : String) (call : ToolCall)
    (h : 0 < (dispatchTool cfg gitRemote (fun _ => Except.error msg) call).2.length) :
    dispatchBoundary (dispatchTool cfg gitRemote (fun _ => Except.error msg) call).1 =
      ⟨[msg], true⟩ := by
  cases call with
  | list_repos org page per_page =>
      by_cases hc : jsOrO org cfg.owner ≠ "" ∨ cfg.token ≠ ""
      · simp [dispatchTool, list_repos_handler, hc, withRequest_of_error, dispatchBoundary]
      · simp [dispatchTool, list_repos_handler, hc] at h
  | get_repo owner repo => rfl
  | list_issues owner repo state page per_page => rfl
  | list_branches owner repo => rfl
  | create_issue owner repo title body => rfl
  | create_pull_request owner repo title head base body => rfl
  | get_connection_info => simp [dispatchTool, get_connection_info_handler] at h

/-- C2 witness: a concrete `get_repo` invocation whose curl call throws. -/
theorem transport_failure_witness :
    0 < (dispatchTool ⟨"https://api.github.com", "tok", true, "o", "r"⟩ none
          (fun _ => Except.error "curl timed out after 30s")
          (ToolCall.get_repo "acme" "widget")).2.length
    ∧ dispatchBoundary (dispatchTool ⟨"https://api.github.com", "tok", true, "o", "r"⟩ none
          (fun _ => Except.error "curl timed out after 30s")
          (ToolCall.get_repo "acme" "widget")).1 =
        ⟨["curl timed out after 30s"], true⟩ :=
  ⟨by decide,
   transport_failure_is_error_result ⟨"https://api.github.com", "tok", true, "o", "r"⟩ none
     "curl timed out after 30s" (ToolCall.get_repo "acme" "widget") (by decide)⟩

theorem issue_line_ne_empty (a b c : String) :
    "#" ++ a ++ ": " ++ b ++ " [" ++ c ++ "]" ≠ "" := by
  apply append_ne_empty_left
  apply append_ne_empty_left
  apply append_ne_empty_left
  apply append_ne_empty_left
  apply append_ne_empty_left
  apply append_ne_empty_left
  decide

theorem found_template_ne_empty (t f : String) :
    "Found " ++ t ++ " repositories:\n\n" ++ f ≠ "" := by
  apply append_ne_empty_left
  apply append_ne_empty_left
  apply append_ne_empty_left
  decide

theorem apiCall_url (cfg : Config) (method endpoint : String) (data : Option JsObj)
    (ps : List (String × Option String)) (h : ¬ buildParams ps = "") :
    apiCall cfg method endpoint data (some ps) =
      mkRequest method (cfg.apiUrl ++ (endpoint ++ ("?" ++ buildParams ps))) data
        cfg.token cfg.isGitHub := by
  unfold apiCall
  dsimp only
  rw [if_neg h, strAppendAssoc, strAppendAssoc]

/-- C4: with a GitHub-flavored configuration and a non-empty token, invoking
`list_issues` with owner "acme", repo "widget", state "closed" (page and
per_page omitted) issues exactly one GET to
`<apiUrl>/repos/acme/widget/issues?state=closed&page=1&per_page=20&limit=20`
with header `Authorization: Bearer <token>`, and on a (nonempty) array
response formats each element as `#<number>: <title> [<state>]` joined by
newlines. -/
theorem list_issues_end_to_end (apiUrl token downer drepo : String)
    (htoken : ¬ token = "") (items : List (Int × String × String)) (hne : items ≠ []) :
    (dispatchTool ⟨apiUrl, token, true, downer, drepo⟩ none
        (fun _ => Except.ok (Json.arr (items.map fun it =>
          Json.obj [("number", Json.num it.1), ("title", Json.str it.2.1),
                    ("state", Json.str it.2.2)])))
        (ToolCall.list_issues "acme" "widget" (some "closed") none none)).1 =
      Except.ok ⟨[jsJoin "\n" (items.map fun it =>
          "#" ++ toString it.1 ++ ": " ++ it.2.1 ++ " [" ++ it.2.2 ++ "]")], false⟩
    ∧ (dispatchTool ⟨apiUrl, token, true, downer, drepo⟩ none
        (fun _ => Except.ok (Json.arr (items.map fun it =>
          Json.obj [("number", Json.num it.1), ("title", Json.str it.2.1),
                    ("state", Json.str it.2.2)])))
        (ToolCall.list_issues "acme" "widget" (some "closed") none none)).2 =
      [⟨"GET",
        apiUrl ++ "/repos/acme/widget/issues?state=closed&page=1&per_page=20&limit=20",
        [("Accept", "application/json"), ("Content-Type", "application/json"),
         ("Authorization", "Bearer " ++ token)], none⟩] := by
  obtain ⟨x, xs, rfl⟩ := List.exists_cons_of_ne_nil hne
  constructor
  · show ((mapE fmtIssueLine
        (List.map (fun it : Int × String × String =>
            Json.obj [("number", Json.num it.1), ("title", Json.str it.2.1),
                      ("state", Json.str it.2.2)]) (x :: xs))).map fun lines =>
          (⟨[jsOr (jsJoin "\n" lines) "No issues found."], false⟩ : ToolResult)) = _
    rw [mapE_ok_comp fmtIssueLine
      (fun it : Int × String × String =>
        Json.obj [("number", Json.num it.1), ("title", Json.str it.2.1),
                  ("state", Json.str it.2.2)])
      (fun it : Int × String × String =>
        "#" ++ toString it.1 ++ ": " ++ it.2.1 ++ " [" ++ it.2.2 ++ "]")
      (fun it => rfl)]
    dsimp only [Except.map]
    have h1 : jsJoin "\n"
        (List.map (fun it : Int × String × String =>
          "#" ++ toString it.1 ++ ": " ++ it.2.1 ++ " [" ++ it.2.2 ++ "]") (x :: xs)) ≠ "" := by
      rw [List.map_cons]
      exact jsJoin_cons_ne _ _ _ (issue_line_ne_empty (toString x.1) x.2.1 x.2.2)
    rw [jsOr_of_ne _ _ h1]
  · show (list_issues_handler ⟨apiUrl, token, true, downer, drepo⟩ _ "acme" "widget"
        (some "closed") none none).2 = _
    unfold list_issues_handler
    dsimp only
    rw [withRequest_snd, apiCall_url]
    · simp [mkRequest, curlHeaders, htoken]
      exact congrArg (fun s => apiUrl ++ s) (by decide)
    · decide

/-- C4 witness: the end-to-end `list_issues` scenario at a concrete
configuration and a one-element response. -/
theorem list_issues_end_to_end_witness :
    (dispatchTool ⟨"https://api.github.com", "tok", true, "", ""⟩ none
        (fun _ => Except.ok (Json.arr [Json.obj [("number", Json.num 7),
          ("title", Json.str "Bug"), ("state", Json.str "closed")]]))
        (ToolCall.list_issues "acme" "widget" (some "closed") none none)).1 =
      Except.ok ⟨["#7: Bug [closed]"], false⟩
    ∧ (dispatchTool ⟨"https://api.github.com", "tok", true, "", ""⟩ none
        (fun _ => Except.ok (Json.arr [Json.obj [("number", Json.num 7),
          ("title", Json.str "Bug"), ("state", Json.str "closed")]]))
        (ToolCall.list_issues "acme" "widget" (some "closed") none none)).2 =
      [⟨"GET",
        "https://api.github.com/repos/acme/widget/issues?state=closed&page=1&per_page=20&limit=20",
        [("Accept", "application/json"), ("Content-Type", "application/json"),
         ("Authorization", "Bearer tok")], none⟩] :=
  list_issues_end_to_end "https://api.github.com" "tok" "" "" (by decide)
    [(7, "Bug", "closed")] (by decide)

/-- C10: on an empty array response `list_repos` answers with the success
text `"Found 0 repositories:\n\n"` — and for every array response its text is
the `Found ...` template, so the `"No repositories found."` fallback guarded
by `||` is unreachable (the template literal is never empty) — whereas
`list_issues` and `list_branches` on an empty array answer
`"No issues found."` and `"No branches found."` respectively. -/
theorem empty_array_formatting (cfg : Config) :
    (∀ (xs : List Json) (entries : List String),
      mapE (fun p : Nat × Json => fmtRepoEntry p.1 p.2) xs.enum = Except.ok entries →
      (dispatchTool cfg none (fun _ => Except.ok (Json.arr xs))
          (ToolCall.list_repos (some "acme") none none)).1 =
        Except.ok ⟨["Found " ++ toString xs.length ++ " repositories:\n\n"
            ++ jsJoin "\n\n" entries], false⟩)
    ∧ (dispatchTool cfg none (fun _ => Except.ok (Json.arr [Json.null]))
          (ToolCall.list_repos (some "acme") none none)).1 =
        Except.error (nullAccessMsg "private")
    ∧ (dispatchTool cfg none (fun _ => Except.ok (Json.arr []))
          (ToolCall.list_repos (some "acme") none none)).1 =
        Except.ok ⟨["Found 0 repositories:\n\n"], false⟩
    ∧ (dispatchTool cfg none (fun _ => Except.ok (Json.arr []))
          (ToolCall.list_issues "acme" "widget" none none none)).1 =
        Except.ok ⟨["No issues found."], false⟩
    ∧ (dispatchTool cfg none (fun _ => Except.ok (Json.arr []))
          (ToolCall.list_branches "acme" "widget")).1 =
        Except.ok ⟨["No branches found."], false⟩ := by
  refine ⟨fun xs entries h => ?_, rfl, rfl, rfl, rfl⟩
  show ((listReposText xs).map fun text => (⟨[text], false⟩ : ToolResult)) = _
  unfold listReposText
  rw [h]
  dsimp only [Except.map]
  have h1 : ("Found " ++ toString xs.length ++ " repositories:\n\n"
      ++ jsJoin "\n\n" entries) ≠ "" :=
    found_template_ne_empty _ _
  rw [jsOr_of_ne _ "No repositories found." h1]

/-- C10 witness: the empty-array instance of the `Found ...` template
conjunct, with the per-element formatting hypothesis discharged at `[]`. -/
theorem empty_array_formatting_witness :
    mapE (fun p : Nat × Json => fmtRepoEntry p.1 p.2) ([] : List Json).enum =
      Except.ok []
    ∧ (dispatchTool ⟨"https://api.github.com", "", true, "", ""⟩ none
        (fun _ => Except.ok (Json.arr []))
        (ToolCall.list_repos (some "acme") none none)).1 =
      Except.ok ⟨["Found 0 repositories:\n\n"], false⟩ :=
  ⟨rfl,
   (empty_array_formatting ⟨"https://api.github.com", "", true, "", ""⟩).1 [] [] rfl⟩
